import Mathlib

/-!
Shallow embedding of `src/snapshotter/snapshotter.py`.

The script orchestrates rsync-based snapshot backups.  External effects
(the subprocess runner, the clock, the filesystem checks done through
`os.path`) are modelled as explicit parameters gathered in an `Env`
record; everything else is a direct translation of the Python source.
Strings are Lean `String`s; Python string methods used by the source
(`str.split`, `str.join`, `os.path.expanduser`, `os.path.abspath`,
`posixpath.normpath`) are translated as executable functions below.
-/

set_option maxRecDepth 100000

namespace Snapshotter

/-- Outcome of launching one external command, as observed by
`subprocess.check_output`: normal exit 0 with captured output, non-zero
exit with captured output and return code, or an `OSError` carrying an
errno (errno 2 means the executable could not be located). -/
inductive RunOutcome where
  | ok (output : String)
  | exitNonZero (output : String) (returncode : Int)
  | osError (errno : Int) (strerror : String)
deriving DecidableEq, Repr

/-- Failures raised by `_run`: `calledProcessError` models the script's
`CalledProcessError` class (command, combined output, exit value),
`noSuchCommandError` models `NoSuchCommandError`, and `osError` models an
`OSError` with errno different from 2 being re-raised unchanged. -/
inductive RunError where
  | calledProcessError (command output : String) (exit_value : Int)
  | noSuchCommandError (command message : String)
  | osError (errno : Int) (strerror : String)
deriving DecidableEq, Repr

/-- Embedding of `_run`: run `command` through the subprocess runner and
return its combined stdout/stderr output, or the classified failure.
Translated from the `try/except` in the source: a
`subprocess.CalledProcessError` becomes `calledProcessError`, an
`OSError` with errno 2 becomes `noSuchCommandError`, any other `OSError`
is re-raised. -/
def _run (runner : String → RunOutcome) (command : String) :
    Except RunError String :=
  match runner command with
  | .ok output => .ok output
  | .exitNonZero output returncode =>
      .error (.calledProcessError command output returncode)
  | .osError errno strerror =>
      if errno = 2 then .error (.noSuchCommandError command strerror)
      else .error (.osError errno strerror)

/-- Python `str.startswith`, computed on the character lists so that
concrete instances evaluate by kernel reduction. -/
def pyStartsWith (s pre : String) : Bool := pre.data.isPrefixOf s.data

/-- Python `str.endswith`, computed on the character lists so that
concrete instances evaluate by kernel reduction. -/
def pyEndsWith (s suf : String) : Bool := suf.data.isSuffixOf s.data

/-- Python `s[n:]` (drop the first `n` characters). -/
def pyDrop (s : String) (n : Nat) : String := (s.data.drop n).asString

/-- Python `str.split(sep)` on a single-character separator, over the
character list of the string: splitting at every occurrence, keeping
empty fields, with `[]` splitting to `[[]]` (Python: `"".split(c) ==
[""]`). -/
def pySplit (sep : Char) : List Char → List (List Char)
  | [] => [[]]
  | c :: cs =>
      match pySplit sep cs with
      | [] => [[]]
      | r :: rs => if c = sep then [] :: r :: rs else (c :: r) :: rs

/-- Python `str.split(sep, 1)` in the case where `sep` occurs in the
string: the part before the first occurrence and the part after it.
(The source only unpacks the result of `arg.split(':', 1)` into two
variables when `_is_remote(arg)` holds, which guarantees a colon is
present; when `sep` is absent this function returns `(l, [])`.) -/
def splitFirst (sep : Char) (l : List Char) : List Char × List Char :=
  (l.takeWhile (fun c => c ≠ sep), (l.dropWhile (fun c => c ≠ sep)).drop 1)

/-- Python `str.join` on a list of strings (`sep.join(parts)`). -/
def pyJoin (sep : String) : List String → String
  | [] => ""
  | [x] => x
  | x :: xs => x ++ sep ++ pyJoin sep xs

/-- Python `os.path.expanduser` (posixpath semantics), with the invoking
user's home directory and the `pwd.getpwnam` user-database lookup as
parameters: a leading `~` (own user) or `~name` (another user) component
is replaced by the corresponding home directory, stripped of trailing
slashes; a path not starting with `~`, or naming an unknown user, is
returned unchanged. -/
def expanduser (home : String) (pwnam : String → Option String)
    (path : String) : String :=
  if ¬ pyStartsWith path "~" then path
  else
    let rest := path.data.drop 1
    let name := rest.takeWhile (fun c => c ≠ '/')
    let tail := rest.dropWhile (fun c => c ≠ '/')
    let userhome? : Option (List Char) :=
      if name.isEmpty then some home.data
      else (pwnam name.asString).map String.data
    match userhome? with
    | none => path
    | some userhome =>
        let stripped := (userhome.reverse.dropWhile (fun c => c = '/')).reverse
        let res := stripped ++ tail
        if res.isEmpty then "/" else res.asString

/-- Python `posixpath.isabs`. -/
def isabs (p : String) : Bool := pyStartsWith p "/"

/-- Python `posixpath.join` restricted to two arguments, as used by
`abspath`. -/
def pyPathJoin (a b : String) : String :=
  if isabs b then b
  else if a = "" ∨ pyEndsWith a "/" then a ++ b
  else a ++ "/" ++ b

/-- Python `posixpath.normpath`: collapse repeated separators and
`.`/`..` components (`..` at the root, or after only `..` components in
a relative path, is kept or dropped exactly as CPython does). -/
def normpath (p : String) : String :=
  if p = "" then "."
  else
    let l := p.data
    let initialSlashes : Nat :=
      if l.take 1 = ['/'] then
        if l.take 2 = ['/', '/'] ∧ l.take 3 ≠ ['/', '/', '/'] then 2 else 1
      else 0
    let comps := pySplit '/' l
    let newComps := comps.foldl
      (fun acc comp =>
        if comp = [] ∨ comp = ['.'] then acc
        else if comp ≠ ['.', '.'] ∨ (initialSlashes = 0 ∧ acc = []) ∨
            acc.getLast? = some ['.', '.'] then acc ++ [comp]
        else if acc ≠ [] then acc.dropLast
        else acc)
      []
    let joined := List.intercalate ['/'] newComps
    let res := List.replicate initialSlashes '/' ++ joined
    if res.isEmpty then "." else res.asString

/-- Python `os.path.abspath` (posixpath): join onto the current working
directory when the path is relative, then normalize. -/
def abspath (cwd p : String) : String :=
  normpath (if isabs p then p else pyPathJoin cwd p)

/-- Embedding of `_is_remote`: the argument is remote iff a `:` occurs
in `arg.split('/')[0]`, i.e. before the first `/`. -/
def _is_remote (arg : String) : Bool :=
  ((pySplit '/' arg.data).headD []).contains ':'

/-- The external world of one invocation: the subprocess runner, the
clock (`_datetime`, already formatted as `YYYY-MM-DDTHH_MM_SS`), the
invoking user's home directory and current working directory, the user
database lookup used by `expanduser`, and the `os.path.isfile` check. -/
structure Env where
  runner : String → RunOutcome
  now : String
  home : String
  cwd : String
  pwnam : String → Option String
  isfile : String → Bool

/-- Embedding of `_parse_rsync_arg`: parse an rsync SRC or DEST argument
into its user, host and path parts.  For a remote argument the text
before the first colon is split on `@`: the user is `split('@')[0]` and
the host is `split('@')[-1]`; the path is the text after the first
colon.  For a local argument user and host are `none` and the path is
`os.path.abspath(os.path.expanduser(arg))`. -/
def _parse_rsync_arg (env : Env) (arg : String) :
    Option String × Option String × String :=
  if _is_remote arg then
    let (before_first_colon, after_first_colon) := splitFirst ':' arg.data
    let user :=
      if before_first_colon.contains '@' then
        some ((pySplit '@' before_first_colon).headD []).asString
      else none
    let host := ((pySplit '@' before_first_colon).getLastD []).asString
    (user, some host, after_first_colon.asString)
  else
    (none, none, abspath env.cwd (expanduser env.home env.pwnam arg))

/-- The fixed rsync excludes-file check done by `snapshot`:
`os.path.isfile(os.path.expanduser("~/.snapshotter/excludes"))`. -/
def excludesFilePresent (env : Env) : Bool :=
  env.isfile (expanduser env.home env.pwnam "~/.snapshotter/excludes")

/-- The `rsync_options` list built by `snapshot`: the fixed option set,
then `--exclude-from` when the excludes file exists, then `--dry-run`
when `debug` is set, then one `--exclude '<pattern>'` entry per pattern
when an exclude list was given (Python `if exclude is not None`). -/
def rsync_options (env : Env) (debug : Bool)
    (exclude : Option (List String)) : List String :=
  ["--archive",
   "--partial",
   "--partial-dir=partially_transferred_files",
   "--one-file-system",
   "--delete",
   "--delete-excluded",
   "--itemize-changes",
   "--link-dest=../latest.snapshot",
   "--human-readable",
   "--quiet",
   "--compress",
   "--fuzzy"]
  ++ (if excludesFilePresent env then
        ["--exclude-from=$HOME/.snapshotter/excludes"] else [])
  ++ (if debug then ["--dry-run"] else [])
  ++ (match exclude with
      | none => []
      | some patterns =>
          patterns.map (fun pattern => "--exclude \x27" ++ pattern ++ "\x27"))

/-- The `[user@]host:` part prepended to the rsync transfer target when
the destination is remote (empty for a local destination). -/
def hostPart (user host : Option String) : String :=
  match host with
  | none => ""
  | some h => (match user with | some u => u ++ "@" | none => "") ++ h ++ ":"

/-- The `rsync_cmd` string built by `snapshot`: `rsync <options>
<source> [user@host:]<snapshots_root>/incomplete.snapshot`, with the
source first given a trailing `/` if it lacks one (`os.sep` on the
POSIX platform the script targets). -/
def rsync_cmd (env : Env) (source dest : String) (debug : Bool)
    (exclude : Option (List String)) : String :=
  let source := if pyEndsWith source "/" then source else source ++ "/"
  let parsed := _parse_rsync_arg env dest
  "rsync " ++ pyJoin " " (rsync_options env debug exclude) ++ " " ++
    source ++ " " ++ hostPart parsed.1 parsed.2.1 ++ parsed.2.2 ++
    "/incomplete.snapshot"

/-- The `mv_cmd` string built by `snapshot`: rename
`<snapshots_root>/incomplete.snapshot` to
`<snapshots_root>/<date>.snapshot`, wrapped as
`ssh [user@]host "mv ..."` when the destination is remote. -/
def mv_cmd (env : Env) (dest : String) : String :=
  let parsed := _parse_rsync_arg env dest
  let snapshots_root := parsed.2.2
  let date := env.now
  (match parsed.2.1 with
   | none => ""
   | some h =>
       "ssh " ++ (match parsed.1 with | some u => u ++ "@" | none => "") ++
         h ++ " \"") ++
  "mv " ++ snapshots_root ++ "/incomplete.snapshot " ++ snapshots_root ++
    "/" ++ date ++ ".snapshot" ++
  (match parsed.2.1 with | none => "" | some _ => "\"")

/-- The `rm_cmd` string built by `snapshot`:
`rm -f <snapshots_root>/latest.snapshot`. -/
def rm_cmd (env : Env) (dest : String) : String :=
  let snapshots_root := (_parse_rsync_arg env dest).2.2
  "rm -f " ++ snapshots_root ++ "/latest.snapshot"

/-- The `ln_cmd` string built by `snapshot`:
`ln -s <date>.snapshot <snapshots_root>/latest.snapshot` (the link
target is the bare relative name `<date>.snapshot`). -/
def ln_cmd (env : Env) (dest : String) : String :=
  let snapshots_root := (_parse_rsync_arg env dest).2.2
  let date := env.now
  "ln -s " ++ date ++ ".snapshot " ++ snapshots_root ++ "/latest.snapshot"

/-- Embedding of `snapshot`: build the rsync command and the three
promotion commands, run rsync, and unless `debug` is set run `mv_cmd`,
`rm_cmd` and `ln_cmd` in that order, each only if everything before it
succeeded (in Python a raised exception aborts the remaining calls).
Returns the list of commands handed to `_run`, in order, together with
the error that aborted the sequence (if any).  The `compress` parameter
is accepted (Python default `True`) but never read by the body; it is
polymorphic because Python's dynamic typing puts no constraint on it. -/
def snapshot {α : Type} (env : Env) (source dest : String)
    (debug : Bool) (compress : α)
    (exclude : Option (List String) := none) :
    List String × Option RunError :=
  let rsync := rsync_cmd env source dest debug exclude
  let mv := mv_cmd env dest
  let rm := rm_cmd env dest
  let ln := ln_cmd env dest
  match _run env.runner rsync with
  | .error e => ([rsync], some e)
  | .ok _ =>
      if debug then ([rsync], none)
      else
        match _run env.runner mv with
        | .error e => ([rsync, mv], some e)
        | .ok _ =>
            match _run env.runner rm with
            | .error e => ([rsync, mv, rm], some e)
            | .ok _ =>
                match _run env.runner ln with
                | .error e => ([rsync, mv, rm, ln], some e)
                | .ok _ => ([rsync, mv, rm, ln], none)

/-- The option values accumulated by the `optparse` parser declared in
`_parse_cli`: the debug flag (default `False`) and the appended
`--exclude` patterns (default `None`, becoming a list on first use,
matching `optparse`'s `action='append'`). -/
structure CliOptions where
  debug : Bool
  exclude : Option (List String)
deriving DecidableEq, Repr

/-- The `optparse` argument scan for the two options `_parse_cli`
declares: `-d`/`--debug`/`-n`/`--dry-run` set the debug flag;
`--exclude PATTERN` (or `--exclude=PATTERN`) appends a pattern; any
other token starting with `-` (except bare `-`) is an unknown option and
makes the parser error out; everything else is a positional argument
(optparse permits options and positionals interleaved).  `none` models
`optparse` exiting with a usage error. -/
def parseArgs : List String → CliOptions → List String →
    Option (CliOptions × List String)
  | [], opts, positional => some (opts, positional.reverse)
  | a :: rest, opts, positional =>
      if a = "-d" ∨ a = "--debug" ∨ a = "-n" ∨ a = "--dry-run" then
        parseArgs rest { opts with debug := true } positional
      else if a = "--exclude" then
        match rest with
        | [] => none
        | p :: rest2 =>
            parseArgs rest2
              { opts with exclude := some ((opts.exclude.getD []) ++ [p]) }
              positional
      else if pyStartsWith a "--exclude=" then
        parseArgs rest
          { opts with
            exclude := some ((opts.exclude.getD []) ++ [pyDrop a 10]) }
          positional
      else if pyStartsWith a "-" ∧ a ≠ "-" then none
      else parseArgs rest opts (a :: positional)

/-- Embedding of `_parse_cli`: parse the command-line arguments and
return `(src, dest, options.debug, options.exclude)`; an error models
either `optparse` bailing out or the `CommandLineArgumentsError` raised
when the positional-argument count differs from two. -/
def _parse_cli (args : List String) :
    Except String (String × String × Bool × Option (List String)) :=
  match parseArgs args ⟨false, none⟩ [] with
  | none => .error "usage: snapshotter [options] SRC DEST"
  | some (options, positional) =>
      match positional with
      | [src, dest] => .ok (src, dest, options.debug, options.exclude)
      | _ => .error "usage: snapshotter [options] SRC DEST"

/-- Result of one `main` invocation: either the argument parsing failed
and the process exited with a usage message, or `snapshot` ran and
produced a command trace and possibly a propagated failure (which `main`
turns into a non-zero `sys.exit`). -/
inductive MainResult where
  | usageExit (message : String)
  | ran (trace : List String) (failure : Option RunError)
deriving Repr

/-- Embedding of `main`: parse the command line and call
`snapshot(src, dest, debug, exclude)`.  Note the call passes `exclude`
as the fourth positional argument, which is `snapshot`'s `compress`
parameter; `snapshot`'s own `exclude` parameter is left at its default. -/
def main (env : Env) (args : List String) : MainResult :=
  match _parse_cli args with
  | .error message => .usageExit message
  | .ok (src, dest, debug, exclude) =>
      let (trace, failure) := snapshot env src dest debug exclude
      .ran trace failure

/-! Specification-side definitions, used to compare the code against the
wording of the spec, and fixed environments used by concrete
instantiations. -/

/-- The spec wording for the remote/local classification: the argument
is remote iff a colon appears before the first path separator, i.e. the
prefix of the string up to (excluding) its first `/` contains a `:`. -/
def remoteBySpec (arg : String) : Bool :=
  (arg.data.takeWhile (fun c => c ≠ '/')).contains ':'

/-- Everything after the last occurrence of `sep` (the whole list when
`sep` does not occur); used to state which part of the pre-colon text
becomes the host. -/
def afterLast (sep : Char) : List Char → List Char
  | [] => []
  | c :: cs =>
      if sep ∈ cs then afterLast sep cs
      else if c = sep then cs
      else c :: cs

/-- A fixed environment in which every external command succeeds with
empty output, the clock reads a fixed label, the home directory is
`/home/user`, the working directory is `/`, the user database is empty
and no excludes file exists. -/
def okEnv : Env :=
  ⟨fun _ => .ok "", "2013-05-02T12_00_00", "/home/user", "/",
   fun _ => none, fun _ => false⟩

/-- `okEnv` with the `~/.snapshotter/excludes` file present. -/
def withExcludesEnv : Env := { okEnv with isfile := fun _ => true }

/-- `okEnv` with a runner on which every command exits with status 23
and output `rsync: some error`. -/
def failEnv : Env :=
  { okEnv with runner := fun _ => .exitNonZero "rsync: some error" 23 }

/-! Helper lemmas relating the split-based computations of the source
to positional descriptions (text before the first occurrence, text
after the last occurrence), and substring facts about joined command
strings. -/

theorem pySplit_ne_nil (sep : Char) (l : List Char) :
    pySplit sep l ≠ [] := by
  cases l with
  | nil => simp [pySplit]
  | cons c cs =>
      simp only [pySplit]
      cases pySplit sep cs with
      | nil => simp
      | cons r rs => by_cases hc : c = sep <;> simp [hc]

/-- The first field of a Python split is the text before the first
occurrence of the separator. -/
theorem pySplit_headD (sep : Char) (l : List Char) :
    (pySplit sep l).headD [] = l.takeWhile (fun c => c ≠ sep) := by
  induction l with
  | nil => rfl
  | cons c cs ih =>
      cases h : pySplit sep cs with
      | nil => exact absurd h (pySplit_ne_nil sep cs)
      | cons r rs =>
          rw [h] at ih
          simp only [List.headD_cons, ne_eq, decide_not] at ih
          by_cases hc : c = sep
          · subst hc
            simp [pySplit, h, List.takeWhile_cons]
          · simp [pySplit, h, hc, List.takeWhile_cons, ← ih]

theorem pySplit_of_not_mem {sep : Char} {l : List Char} (h : sep ∉ l) :
    pySplit sep l = [l] := by
  induction l with
  | nil => rfl
  | cons c cs ih =>
      have hc : c ≠ sep := fun he => h (he ▸ List.mem_cons_self c cs)
      have hcs : sep ∉ cs := fun hm => h (List.mem_cons_of_mem c hm)
      simp only [pySplit, ih hcs]
      simp [hc]

theorem pySplit_eq_single {sep : Char} {l x : List Char}
    (h : pySplit sep l = [x]) : x = l ∧ sep ∉ l := by
  induction l generalizing x with
  | nil =>
      simp only [pySplit] at h
      cases h
      exact ⟨rfl, List.not_mem_nil sep⟩
  | cons c cs ih =>
      cases h' : pySplit sep cs with
      | nil => exact absurd h' (pySplit_ne_nil sep cs)
      | cons r rs =>
          simp only [pySplit, h'] at h
          by_cases hc : c = sep
          · simp [hc] at h
          · rw [if_neg hc] at h
            injection h with h1 h2
            obtain ⟨hr, hsep⟩ := ih (by rw [h', h2])
            refine ⟨by rw [← h1, hr], fun hm => ?_⟩
            rcases List.mem_cons.mp hm with he | hm2
            · exact hc he.symm
            · exact hsep hm2

theorem afterLast_of_not_mem {sep : Char} {l : List Char} (h : sep ∉ l) :
    afterLast sep l = l := by
  cases l with
  | nil => rfl
  | cons c cs =>
      have hc : ¬ (c = sep) := fun he => h (he ▸ List.mem_cons_self c cs)
      have hcs : ¬ (sep ∈ cs) := fun hm => h (List.mem_cons_of_mem c hm)
      simp [afterLast, hcs, hc]

theorem getLastD_cons_default {α : Type} (a : α) (l : List α) (d₁ d₂ : α) :
    (a :: l).getLastD d₁ = (a :: l).getLastD d₂ := by
  cases l with
  | nil => rfl
  | cons b bs =>
      exact (List.getLastD_cons d₁ a (b :: bs)).trans
        (List.getLastD_cons d₂ a (b :: bs)).symm

/-- The last field of a Python split is the text after the last
occurrence of the separator. -/
theorem pySplit_getLastD (sep : Char) (l : List Char) :
    (pySplit sep l).getLastD [] = afterLast sep l := by
  induction l with
  | nil => rfl
  | cons c cs ih =>
      cases h' : pySplit sep cs with
      | nil => exact absurd h' (pySplit_ne_nil sep cs)
      | cons r rs =>
          rw [h'] at ih
          by_cases hc : c = sep
          · subst hc
            rw [show pySplit c (c :: cs) = [] :: r :: rs by
              simp [pySplit, h']]
            rw [List.getLastD_cons, ih]
            by_cases hm : c ∈ cs
            · simp [afterLast, hm]
            · simp [afterLast, hm, afterLast_of_not_mem hm]
          · simp only [pySplit, h', if_neg hc]
            cases rs with
            | nil =>
                obtain ⟨hr, hm⟩ := pySplit_eq_single h'
                subst hr
                simp [afterLast, hm, hc]
            | cons s ss =>
                have hm : sep ∈ cs := by
                  by_contra hnm
                  rw [pySplit_of_not_mem hnm] at h'
                  injection h' with _ h2
                  exact (List.cons_ne_nil s ss) h2.symm
                rw [List.getLastD_cons]
                rw [List.getLastD_cons] at ih
                rw [getLastD_cons_default s ss (c :: r) r, ih]
                simp [afterLast, hm]

theorem substr_mid {α : Type} (l m r x : List α) (h : x <:+: m) :
    x <:+: l ++ (m ++ r) :=
  h.trans ((List.append_assoc l m r) ▸ List.infix_append l m r)

/-- Every member of a joined option list occurs as a substring of the
joined command text. -/
theorem substr_pyJoin (sep : String) (x : String) :
    ∀ l : List String, x ∈ l → x.data <:+: (pyJoin sep l).data
  | [], h => absurd h (List.not_mem_nil x)
  | [y], h => by
      rcases List.mem_singleton.mp h with rfl
      exact List.infix_rfl
  | y :: z :: zs, h => by
      rcases List.mem_cons.mp h with rfl | h2
      · show x.data <:+: (x ++ sep ++ pyJoin sep (z :: zs)).data
        rw [String.data_append, String.data_append]
        exact ((List.prefix_append x.data sep.data).trans
          (List.prefix_append _ _)).isInfix
      · have ihr := substr_pyJoin sep x (z :: zs) h2
        show x.data <:+: (y ++ sep ++ pyJoin sep (z :: zs)).data
        rw [String.data_append, String.data_append]
        exact ihr.trans (List.suffix_append _ _).isInfix

/-! Claim theorems. -/

/-- C9: `_run` raises the generic `calledProcessError` (carrying the
command, the combined output and the exit code) exactly when the
process runs and exits non-zero, raises the distinct
`noSuchCommandError` exactly when the executable cannot be located
(`OSError` with errno 2), and a missing executable never produces the
generic failure type. -/
theorem run_failure_classification (runner : String → RunOutcome)
    (command output message : String) (code : Int) :
    (_run runner command =
        .error (.calledProcessError command output code) ↔
      runner command = .exitNonZero output code)
    ∧ (_run runner command =
        .error (.noSuchCommandError command message) ↔
      runner command = .osError 2 message)
    ∧ (runner command = .osError 2 message →
        ∀ (o : String) (v : Int),
          _run runner command ≠
            .error (.calledProcessError command o v)) := by
  refine ⟨?_, ?_, ?_⟩
  · cases h : runner command with
    | ok o => simp [_run, h]
    | exitNonZero o c => simp [_run, h]
    | osError e m =>
        simp only [_run, h]
        by_cases he : e = 2 <;> simp [he]
  · cases h : runner command with
    | ok o => simp [_run, h]
    | exitNonZero o c => simp [_run, h]
    | osError e m =>
        simp only [_run, h]
        by_cases he : e = 2 <;> simp [he]
  · intro hos o v
    simp [_run, hos]

/-- Witness for C9 at a concrete runner whose executable is missing:
the result is not the generic failure. -/
theorem run_failure_classification_witness :
    _run (fun _ => RunOutcome.osError 2 "No such file or directory")
        "rsync" ≠
      Except.error (RunError.calledProcessError "rsync" "boom" 1) :=
  (run_failure_classification
    (fun _ => RunOutcome.osError 2 "No such file or directory")
    "rsync" "x" "No such file or directory" 0).2.2 rfl "boom" 1

/-- C7: the parser classifies an argument as remote iff a colon appears
before the first `/` (the spec-side `remoteBySpec`); a local argument
yields no user, no host, and the path expanded from a leading `~` to
the home directory and resolved to an absolute path; in particular
`/tmp/a:b`, whose colon comes after the first separator, is local. -/
theorem parse_local_classification (env : Env) (arg : String) :
    (_is_remote arg = remoteBySpec arg)
    ∧ (_is_remote arg = false →
        _parse_rsync_arg env arg =
          (none, none, abspath env.cwd (expanduser env.home env.pwnam arg)))
    ∧ _is_remote "/tmp/a:b" = false := by
  refine ⟨?_, ?_, by decide⟩
  · unfold _is_remote remoteBySpec
    rw [pySplit_headD]
  · intro h
    unfold _parse_rsync_arg
    simp [h]

/-- Witness for C7 at the concrete local argument `/tmp/a:b`. -/
theorem parse_local_classification_witness :
    _parse_rsync_arg okEnv "/tmp/a:b" = (none, none, "/tmp/a:b") :=
  ((parse_local_classification okEnv "/tmp/a:b").2.1 (by decide)).trans
    (by decide)

/-- C6 counterexample: for the remote argument `a@b@c:/p` the head
before the colon is `a@b@c`; the claim says the user is everything
before the last `@`, which would be `a@b`, but the code takes
`split('@')[0]`, everything before the first `@`, namely `a`. -/
theorem parse_remote_user_counterexample :
    (_parse_rsync_arg okEnv "a@b@c:/p").1 ≠ some "a@b" ∧
    _parse_rsync_arg okEnv "a@b@c:/p" = (some "a", some "c", "/p") := by
  refine ⟨by decide, by decide⟩

/-- C6 (amended): for every remote argument, the head before the first
colon is split on `@` so that the user is everything before the FIRST
`@` (when an `@` is present, else no user) and the host is everything
after the last `@`; the path is everything after the first colon.  In
particular `user@host:/a/b` parses to user `user`, host `host`, path
`/a/b`. -/
theorem parse_remote_user_host (env : Env) (arg : String)
    (h : _is_remote arg = true) :
    _parse_rsync_arg env arg =
      (let head := arg.data.takeWhile (fun c => c ≠ ':')
       ((if head.contains '@' then
           some (head.takeWhile (fun c => c ≠ '@')).asString
         else none),
        some (afterLast '@' head).asString,
        ((arg.data.dropWhile (fun c => c ≠ ':')).drop 1).asString))
    ∧ _parse_rsync_arg env "user@host:/a/b" =
        (some "user", some "host", "/a/b") := by
  constructor
  · unfold _parse_rsync_arg
    rw [if_pos h]
    simp only [splitFirst, pySplit_headD, pySplit_getLastD]
  · unfold _parse_rsync_arg
    rw [if_pos (by decide : _is_remote "user@host:/a/b" = true)]
    decide

/-- Witness for C6 (amended) at the concrete `user@host:/a/b`. -/
theorem parse_remote_user_host_witness :
    _parse_rsync_arg okEnv "user@host:/a/b" =
      (some "user", some "host", "/a/b") :=
  (parse_remote_user_host okEnv "user@host:/a/b" (by decide)).2

/-- C3: with the trial-run (debug) flag set, the only command handed to
the runner is the sync command, whatever its outcome — no rename,
remove-link or create-link command is executed — and the sync command
carries the `--dry-run` option (both as a member of the option list it
is assembled from and as a substring of the command text). -/
theorem trial_mode_no_promotion {α : Type} (env : Env)
    (source dest : String) (compress : α)
    (exclude : Option (List String)) :
    (snapshot env source dest true compress exclude).1 =
      [rsync_cmd env source dest true exclude]
    ∧ "--dry-run" ∈ rsync_options env true exclude
    ∧ "--dry-run".data <:+: (rsync_cmd env source dest true exclude).data := by
  have hm : "--dry-run" ∈ rsync_options env true exclude := by
    unfold rsync_options
    exact List.mem_append.mpr (Or.inl (List.mem_append.mpr
      (Or.inr (by simp))))
  refine ⟨?_, hm, ?_⟩
  · unfold snapshot
    cases h : _run env.runner (rsync_cmd env source dest true exclude) with
    | ok o => simp [h]
    | error e => simp [h]
  · have hj := substr_pyJoin " " "--dry-run"
      (rsync_options env true exclude) hm
    unfold rsync_cmd
    simp only [String.data_append, List.append_assoc]
    exact substr_mid _ _ _ _ hj

/-- C4: when the sync command exits with a non-zero status, no
promotion command is executed (the trace is just the sync command) and
the raised failure is the generic one carrying the sync command, its
combined output and its exit code. -/
theorem sync_failure_aborts {α : Type} (env : Env) (source dest : String)
    (debug : Bool) (compress : α) (exclude : Option (List String))
    (output : String) (code : Int)
    (h : env.runner (rsync_cmd env source dest debug exclude) =
      .exitNonZero output code) :
    snapshot env source dest debug compress exclude =
      ([rsync_cmd env source dest debug exclude],
       some (.calledProcessError
         (rsync_cmd env source dest debug exclude) output code)) := by
  unfold snapshot
  simp [_run, h]

/-- Witness for C4: a concrete run on which every command exits 23. -/
theorem sync_failure_aborts_witness :
    snapshot failEnv "/src" "/dest" false true none =
      ([rsync_cmd failEnv "/src" "/dest" false none],
       some (RunError.calledProcessError
         (rsync_cmd failEnv "/src" "/dest" false none)
         "rsync: some error" 23)) :=
  sync_failure_aborts failEnv "/src" "/dest" false true none
    "rsync: some error" 23 rfl

/-- C2: on sync success in non-trial mode the commands handed to the
runner are exactly the sync command followed by the three promotion
commands, in order rename → remove-old-link → create-new-link; at the
spec's end-to-end example destination `alice@example.com:/backup` the
rename is wrapped as `ssh alice@example.com "mv ..."`; the remove
command deletes `<destRoot>/latest.snapshot`; and the created symlink's
target is the bare relative name `<label>.snapshot`, not an absolute
path. -/
theorem promotion_sequence {α : Type} (env : Env) (source dest : String)
    (compress : α) (exclude : Option (List String))
    (o₁ o₂ o₃ : String)
    (hr : env.runner (rsync_cmd env source dest false exclude) = .ok o₁)
    (hmv : env.runner (mv_cmd env dest) = .ok o₂)
    (hrm : env.runner (rm_cmd env dest) = .ok o₃) :
    (snapshot env source dest false compress exclude).1 =
      [rsync_cmd env source dest false exclude, mv_cmd env dest,
       rm_cmd env dest, ln_cmd env dest]
    ∧ mv_cmd env "alice@example.com:/backup" =
        "ssh alice@example.com \"mv /backup/incomplete.snapshot /backup/" ++
          env.now ++ ".snapshot" ++ "\""
    ∧ rm_cmd env dest =
        "rm -f " ++ (_parse_rsync_arg env dest).2.2 ++ "/latest.snapshot"
    ∧ ln_cmd env dest =
        "ln -s " ++ env.now ++ ".snapshot " ++
          (_parse_rsync_arg env dest).2.2 ++ "/latest.snapshot" := by
  refine ⟨?_, rfl, rfl, rfl⟩
  unfold snapshot
  simp only [_run, hr, hmv, hrm]
  cases h₄ : env.runner (ln_cmd env dest) with
  | ok o => simp [h₄]
  | exitNonZero o c => simp [h₄]
  | osError e m => by_cases he : e = 2 <;> simp [h₄, he]

/-- Witness for C2: the success-path environment `okEnv` with the
spec's end-to-end remote destination. -/
theorem promotion_sequence_witness :
    (snapshot okEnv "/data" "alice@example.com:/backup" false true none).1 =
      [rsync_cmd okEnv "/data" "alice@example.com:/backup" false none,
       mv_cmd okEnv "alice@example.com:/backup",
       rm_cmd okEnv "alice@example.com:/backup",
       ln_cmd okEnv "alice@example.com:/backup"] :=
  (promotion_sequence okEnv "/data" "alice@example.com:/backup" true none
    "" "" "" rfl rfl rfl).1

/-- C5: the transfer target of the built sync command is always
`<destRoot>/incomplete.snapshot` (the command text ends with it), the
`--link-dest=../latest.snapshot` option is always present (also with no
prior snapshot, as in the spec's no-prior-snapshot scenario, evaluated
concretely below), and a remote destination prefixes the target with
`[user@]host:`. -/
theorem sync_target_and_linkdest (env : Env) (source dest : String)
    (debug : Bool) (exclude : Option (List String)) :
    (∃ p : String, rsync_cmd env source dest debug exclude =
        p ++ ((_parse_rsync_arg env dest).2.2 ++ "/incomplete.snapshot"))
    ∧ "--link-dest=../latest.snapshot" ∈ rsync_options env debug exclude
    ∧ rsync_cmd okEnv "/data/" "/backup" false none =
        "rsync --archive --partial --partial-dir=partially_transferred_files --one-file-system --delete --delete-excluded --itemize-changes --link-dest=../latest.snapshot --human-readable --quiet --compress --fuzzy /data/ /backup/incomplete.snapshot"
    ∧ rsync_cmd okEnv "/data/" "alice@example.com:/backup" false none =
        "rsync --archive --partial --partial-dir=partially_transferred_files --one-file-system --delete --delete-excluded --itemize-changes --link-dest=../latest.snapshot --human-readable --quiet --compress --fuzzy /data/ alice@example.com:/backup/incomplete.snapshot" := by
  refine ⟨?_, ?_, rfl, rfl⟩
  · exact ⟨_, String.append_assoc _ _ _⟩
  · unfold rsync_options
    exact List.mem_append.mpr (Or.inl (List.mem_append.mpr (Or.inl
      (List.mem_append.mpr (Or.inl (by simp))))))

/-- Helper for C8: a per-pattern exclude option can never coincide with
the excludes-file option, whatever the pattern (they differ at the
character position right after `--exclude`). -/
theorem exclude_option_ne_excludeFrom (p : String) :
    "--exclude \x27" ++ p ++ "\x27" ≠
      "--exclude-from=$HOME/.snapshotter/excludes" := by
  intro h
  have hd := congrArg String.data h
  rw [String.data_append, String.data_append, List.append_assoc] at hd
  have ht := congrArg (List.take 11) hd
  have h11 : ("--exclude \x27".data).length = 11 := by decide
  rw [← h11, List.take_left] at ht
  exact absurd ht (by decide)

/-- C8: the built option list carries the
`--exclude-from=$HOME/.snapshotter/excludes` instruction iff the check
`os.path.isfile(os.path.expanduser("~/.snapshotter/excludes"))`
succeeds; the checked location is the excludes file under the expanded
home directory (evaluated concretely for home `/home/user`); with the
file present the instruction occurs in the sync command text, and with
it absent no `--exclude-from` instruction occurs at all.  (The
instruction's path spells `$HOME` literally, the shell-unexpanded form
the spec flags as an open question.) -/
theorem excludes_file_gating (env : Env) (debug : Bool)
    (exclude : Option (List String)) :
    ("--exclude-from=$HOME/.snapshotter/excludes" ∈
        rsync_options env debug exclude ↔ excludesFilePresent env = true)
    ∧ excludesFilePresent env =
        env.isfile (expanduser env.home env.pwnam "~/.snapshotter/excludes")
    ∧ expanduser "/home/user" (fun _ => none) "~/.snapshotter/excludes" =
        "/home/user/.snapshotter/excludes"
    ∧ "--exclude-from=$HOME/.snapshotter/excludes".data <:+:
        (rsync_cmd withExcludesEnv "/src" "/dest" false none).data
    ∧ ¬ ("--exclude-from".data <:+:
        (rsync_cmd okEnv "/src" "/dest" false none).data) := by
  refine ⟨⟨?_, ?_⟩, rfl, by decide, ?_, by decide⟩
  · intro hm
    unfold rsync_options at hm
    rcases List.mem_append.mp hm with hm1 | hm1
    · rcases List.mem_append.mp hm1 with hm2 | hm2
      · rcases List.mem_append.mp hm2 with hm3 | hm3
        · exact absurd hm3 (by decide)
        · by_cases hp : excludesFilePresent env = true
          · exact hp
          · rw [if_neg hp] at hm3
            exact absurd hm3 (List.not_mem_nil _)
      · cases debug with
        | false => exact absurd hm2 (List.not_mem_nil _)
        | true => exact absurd (List.mem_singleton.mp hm2) (by decide)
    · cases exclude with
      | none => exact absurd hm1 (List.not_mem_nil _)
      | some pats =>
          obtain ⟨p, _, he⟩ := List.mem_map.mp hm1
          exact absurd he (exclude_option_ne_excludeFrom p)
  · intro hp
    unfold rsync_options
    refine List.mem_append.mpr (Or.inl (List.mem_append.mpr (Or.inl
      (List.mem_append.mpr (Or.inr ?_)))))
    rw [if_pos hp]
    simp
  · have hm : "--exclude-from=$HOME/.snapshotter/excludes" ∈
        rsync_options withExcludesEnv false none := by
      unfold rsync_options
      refine List.mem_append.mpr (Or.inl (List.mem_append.mpr (Or.inl
        (List.mem_append.mpr (Or.inr ?_)))))
      rw [if_pos (by decide)]
      simp
    have hj := substr_pyJoin " " _ _ hm
    unfold rsync_cmd
    simp only [String.data_append, List.append_assoc]
    exact substr_mid _ _ _ _ hj

/-- C10: two calls of `snapshot` differing only in the `compress`
argument (even at different types, since the parameter is never read)
produce identical command traces and results, and the `--compress`
option is present unconditionally. -/
theorem compress_parameter_no_effect {α β : Type} (env : Env)
    (source dest : String) (debug : Bool) (c₁ : α) (c₂ : β)
    (exclude : Option (List String)) :
    snapshot env source dest debug c₁ exclude =
      snapshot env source dest debug c₂ exclude
    ∧ "--compress" ∈ rsync_options env debug exclude := by
  refine ⟨rfl, ?_⟩
  unfold rsync_options
  exact List.mem_append.mpr (Or.inl (List.mem_append.mpr (Or.inl
    (List.mem_append.mpr (Or.inl (by simp))))))

/-- C1 (code bug): through the command-line entry point, a supplied
exclude pattern is parsed by `_parse_cli` but then dropped, because
`main` passes the exclude list as `snapshot`'s fourth positional
parameter `compress`; the sync command that is built and run contains
no exclude instruction at all, while calling the command builder with
the pattern in the proper `exclude` parameter would have produced one. -/
theorem cli_exclude_patterns_dropped :
    _parse_cli ["--exclude", ".git/*", "/src", "/dest"] =
      .ok ("/src", "/dest", false, some [".git/*"])
    ∧ main okEnv ["--exclude", ".git/*", "/src", "/dest"] =
        .ran [rsync_cmd okEnv "/src" "/dest" false none,
              mv_cmd okEnv "/dest", rm_cmd okEnv "/dest",
              ln_cmd okEnv "/dest"] none
    ∧ ¬ ("--exclude".data <:+:
        (rsync_cmd okEnv "/src" "/dest" false none).data)
    ∧ "--exclude \x27.git/*\x27".data <:+:
        (rsync_cmd okEnv "/src" "/dest" false (some [".git/*"])).data := by
  exact ⟨rfl, rfl, by decide, by decide⟩

end Snapshotter
